import Mathlib

/-!
# Verification of the gridCrawler game core

A shallow embedding, in Lean 4, of the procedural grid generation and
player-state progression engine of the gridCrawler game (a React/A-Frame
front end with an Express/Mongoose save backend), together with theorems
settling the specification claims about it.

The embedding follows the source:
* cell types, the effect table and the difficulty table come from the
  constants block of the main component file;
* `initializeGameData` / `getRandomPerimeterCell` are embedded with the
  randomness source `Math.random` modelled as a stream of rationals in
  `[0, 1)`; the do-while resampling loop carries explicit fuel, with
  `none` standing for an execution that never exits the loop;
* the game-tick and timer `useEffect` bodies of `NowPlayingScreen` are
  embedded as state-transition functions `onPositionSample` and
  `onClockTick` on the component's state record;
* `resetGame` and the `handleSaveGame` / `handleLoadGame` pair are the
  reset operation and the snapshot codec.

Machine numbers are modelled as `ℤ` / `ℚ`: the game only ever computes
with small integers and small decimal rationals, on which JS doubles are
exact.
-/

namespace GridCrawler

/-- Cell types of the game grid (source enum `GridCellType`). -/
inductive GridCellType where
  | BLANK
  | SPEEDER
  | LAVA
  | MUD
  deriving DecidableEq

/-- Effects and appearance of a grid-cell type (source interface `CellEffect`). -/
structure CellEffect where
  healthChange : ℤ
  movesChange : ℤ
  color : String
  name : String
  deriving DecidableEq

/-- One cell of the grid (source interface `GridCell`): an id, a type, world
coordinates `x`/`z` and grid indices `gridX`/`gridZ`. -/
structure GridCell where
  id : String
  type : GridCellType
  x : ℚ
  z : ℚ
  gridX : ℤ
  gridZ : ℤ
  deriving DecidableEq

/-- Difficulty levels (source type `DifficultyLevel`). -/
inductive DifficultyLevel where
  | easy
  | medium
  | hell
  deriving DecidableEq

/-- Source constant `GRID_SIZE` (side length of the square grid). -/
def GRID_SIZE : ℤ := 25

/-- Source constant `CELL_UNIT_SIZE`. -/
def CELL_UNIT_SIZE : ℚ := 1

/-- Source constant `INITIAL_PLAYER_HEALTH`. -/
def INITIAL_PLAYER_HEALTH : ℤ := 100

/-- Source constant `INITIAL_PLAYER_MOVES`. -/
def INITIAL_PLAYER_MOVES : ℤ := 200

/-- Source constant `GAME_DURATION_SECONDS`. -/
def GAME_DURATION_SECONDS : ℤ := 60

/-- Source table `DIFFICULTY_SETTINGS`: the probability that a non-start/end
cell is drawn Blank (source field value 0.8 / 0.55 / 0.3). -/
def DIFFICULTY_SETTINGS : DifficultyLevel → ℚ
  | .easy => 8 / 10
  | .medium => 55 / 100
  | .hell => 3 / 10

/-- Source table `CELL_EFFECTS`. -/
def CELL_EFFECTS : GridCellType → CellEffect
  | .BLANK => { healthChange := 0, movesChange := -1, color := "#DDDDDD", name := "Blank" }
  | .SPEEDER => { healthChange := -5, movesChange := 0, color := "#ADD8E6", name := "Speeder" }
  | .LAVA => { healthChange := -50, movesChange := -10, color := "#FF4500", name := "Lava" }
  | .MUD => { healthChange := -10, movesChange := -5, color := "#A0522D", name := "Mud" }

/-- JS `Math.round` (round half toward positive infinity): `⌊q + 1/2⌋`. -/
def mathRound (q : ℚ) : ℤ := ⌊q + 1 / 2⌋

/-- Grid-index conversion used by the game tick:
`Math.round(world / CELL_UNIT_SIZE + GRID_SIZE / 2 - 0.5)`. -/
def toGridIndex (world : ℚ) : ℤ :=
  mathRound (world / CELL_UNIT_SIZE + (GRID_SIZE : ℚ) / 2 - 1 / 2)

/-- Border clamp used by the game tick: `Math.max(0, Math.min(GRID_SIZE - 1, i))`. -/
def clampIndex (i : ℤ) : ℤ := max 0 (min (GRID_SIZE - 1) i)

/-- Optional-chained grid lookup `gridData[x]?.[z]`; a negative or
out-of-range index yields `none` (JS `undefined`). -/
def cellAt (g : List (List GridCell)) (x z : ℤ) : Option GridCell :=
  if 0 ≤ x ∧ 0 ≤ z then (g[x.toNat]?).bind fun row => row[z.toNat]? else none

/-- Trail key of a cell, source template literal `` `${x},${z}` ``. -/
def cellKey (x z : ℤ) : String := toString x ++ "," ++ toString z

/-- JS `Set.prototype.add`: append the key if it is not already present. -/
def setInsert (l : List String) (k : String) : List String :=
  if k ∈ l then l else l ++ [k]

/-- JS `new Set(array)`: keeps the first occurrence of each element, in order. -/
def setOfList (l : List String) : List String := l.foldl setInsert []

/-- World coordinate of a grid index: `(index - GRID_SIZE / 2 + 0.5) * CELL_UNIT_SIZE`. -/
def worldCoord (i : ℤ) : ℚ := ((i : ℚ) - (GRID_SIZE : ℚ) / 2 + 1 / 2) * CELL_UNIT_SIZE

/-- The `player` sub-object of the persisted snapshot. -/
structure PlayerInfo where
  gridX : ℤ
  gridZ : ℤ
  worldX : ℚ
  worldZ : ℚ
  health : ℤ
  moves : ℤ
  deriving DecidableEq

/-- The `game` sub-object of the persisted snapshot. -/
structure GameInfo where
  timeLeft : ℤ
  isFpsView : Bool
  currentCellType : Option GridCellType
  startCell : ℤ × ℤ
  endCell : ℤ × ℤ
  isOver : Bool
  hasWon : Bool
  timerGameOver : Bool
  deriving DecidableEq

/-- Source interface `GameState`: the snapshot shape produced by
`handleSaveGame` and consumed by `resetGame`. -/
structure GameState where
  playerName : String
  difficulty : DifficultyLevel
  player : PlayerInfo
  game : GameInfo
  gridData : List (List GridCell)
  visitedCellTrail : List String
  deriving DecidableEq

/-- The mutable state of `NowPlayingScreen`, one field per `useState` hook
that the progression logic touches (`gridX`/`gridZ` is `currentGridIndices`,
`startCell` is `actualStartCellIndices`, `isOver` is `gameOver`). -/
structure EngineState where
  gridData : List (List GridCell)
  playerStartPos : ℚ × ℚ
  startMarkerPos : ℚ × ℚ
  endMarkerPos : ℚ × ℚ
  gridX : ℤ
  gridZ : ℤ
  startCell : ℤ × ℤ
  endCell : ℤ × ℤ
  visitedCellTrail : List String
  health : ℤ
  moves : ℤ
  timeLeft : ℤ
  difficulty : DifficultyLevel
  isFpsView : Bool
  isOver : Bool
  hasWon : Bool
  timerGameOver : Bool
  lastMessage : String
  deriving DecidableEq

/-- Message set by the win branch of the game tick. -/
def winMessage : String := "You Win! Congratulations!"

/-- Message set by the timer effect on timeout (source literal, with the JSX
apostrophe entity). -/
def timeoutMessage : String := "Time&apos;s Up! YOU LOSE!"

/-- Message set when health is depleted. -/
def healthLossMessage : String := "Game Over: Health depleted!"

/-- Message set when moves run out. -/
def movesLossMessage : String := "Game Over: Ran out of moves!"

/-- Source sign formatting `${v >= 0 ? '+' : ''}${v}`. -/
def signed (v : ℤ) : String := (if 0 ≤ v then "+" else "") ++ toString v

/-- The per-step status line built in the game tick. -/
def cellStepMessage (e : CellEffect) : String :=
  "Player on " ++ e.name ++ ": Health " ++ signed e.healthChange ++
    ", Moves " ++ signed e.movesChange ++ "."

/-- Body of the game-tick handler once the new clamped indices `cx`/`cz`
differ from the current ones: record the previous cell in the trail (unless
it is the start or end cell, and only when it exists in `gridData`), move the
player, then either win on the end cell or apply the cell effect and check
the loss conditions.  Mirrors the source line for line, including the use of
the pre-update `gameOver`/`hasWon`/`timerGameOver` closure values in the
final `setLastMessage` guard. -/
def applyCellStep (s : EngineState) (cx cz : ℤ) : EngineState :=
  let trail :=
    if (cellAt s.gridData s.gridX s.gridZ).isSome = true
        ∧ ¬(s.gridX = s.startCell.1 ∧ s.gridZ = s.startCell.2)
        ∧ ¬(s.gridX = s.endCell.1 ∧ s.gridZ = s.endCell.2) then
      setInsert s.visitedCellTrail (cellKey s.gridX s.gridZ)
    else s.visitedCellTrail
  match cellAt s.gridData cx cz with
  | none => { s with gridX := cx, gridZ := cz, visitedCellTrail := trail }
  | some cell =>
    if cx = s.endCell.1 ∧ cz = s.endCell.2 then
      { s with gridX := cx, gridZ := cz, visitedCellTrail := trail,
               hasWon := true, isOver := true, lastMessage := winMessage }
    else
      let eff := CELL_EFFECTS cell.type
      let newHealth := s.health + eff.healthChange
      let newMoves := s.moves + eff.movesChange
      let lost := newHealth ≤ 0 ∨ newMoves ≤ 0
      let newIsOver := if lost ∧ s.timerGameOver = false then true else s.isOver
      let msg :=
        if lost ∧ s.timerGameOver = false then
          (if newHealth ≤ 0 then healthLossMessage else movesLossMessage)
        else cellStepMessage eff
      let newMsg :=
        if s.isOver = false ∧ s.hasWon = false ∧ s.timerGameOver = false then msg
        else s.lastMessage
      { s with gridX := cx, gridZ := cz, visitedCellTrail := trail,
               health := newHealth, moves := newMoves,
               isOver := newIsOver, lastMessage := newMsg }

/-- One invocation of the game-tick interval body on a sampled world
position: the effect is not armed at all while `gameOver || hasWon`
(the effect returns before `setInterval`), the position is converted to
clamped grid indices, and a sample landing on the current cell is a no-op. -/
def onPositionSample (s : EngineState) (wx wz : ℚ) : EngineState :=
  if s.isOver = true ∨ s.hasWon = true then s
  else
    let cx := clampIndex (toGridIndex wx)
    let cz := clampIndex (toGridIndex wz)
    if cx = s.gridX ∧ cz = s.gridZ then s else applyCellStep s cx cz

/-- One invocation of the timer effect body: no-op once any of the three
terminal flags is set; commit the timeout transition when `timeLeft ≤ 0`;
otherwise the armed interval decrements `timeLeft` by one second. -/
def onClockTick (s : EngineState) : EngineState :=
  if s.isOver = true ∨ s.hasWon = true ∨ s.timerGameOver = true then s
  else if s.timeLeft ≤ 0 then
    { s with timerGameOver := true, isOver := true, lastMessage := timeoutMessage }
  else { s with timeLeft := s.timeLeft - 1 }

/-- A randomness source: one `Math.random()` draw per index, each in `[0, 1)`. -/
def RandStream : Type := ℕ → {q : ℚ // 0 ≤ q ∧ q < 1}

/-- Source helper `getRandomInt`: `Math.floor(Math.random() * (max - min) + min)`. -/
def randInt (r : ℚ) (lo hi : ℤ) : ℤ := ⌊r * ((hi : ℚ) - (lo : ℚ)) + (lo : ℚ)⌋

/-- One iteration body of `getRandomPerimeterCell`: draw an edge in `[0, 4)`
and an offset in `[0, GRID_SIZE)` and run the edge switch (the `default`
case of the switch coincides with case 3). -/
def perimeterFromDraws (e o : ℚ) : ℤ × ℤ :=
  let edge := randInt e 0 4
  let off := randInt o 0 GRID_SIZE
  if edge = 0 then (off, 0)
  else if edge = 1 then (off, GRID_SIZE - 1)
  else if edge = 2 then (0, off)
  else (GRID_SIZE - 1, off)

/-- Source `getRandomPerimeterCell(excludeGridX, excludeGridZ)` with its
do-while resampling loop.  `k` is the current position in the draw stream
and `fuel` bounds the number of loop iterations; `none` stands for an
execution that never exits the loop.  On success the chosen cell is returned
together with the next stream position. -/
def getRandomPerimeterCell (rnd : RandStream) (exX exZ : ℤ) : ℕ → ℕ → Option ((ℤ × ℤ) × ℕ)
  | 0, _ => none
  | fuel + 1, k =>
    let c := perimeterFromDraws (rnd k).1 (rnd (k + 1)).1
    if c.1 = exX ∧ c.2 = exZ then getRandomPerimeterCell rnd exX exZ fuel (k + 2)
    else some (c, k + 2)

/-- Source id template `` `cell-${i}-${j}` ``. -/
def cellId (i j : ℤ) : String := "cell-" ++ toString i ++ "-" ++ toString j

/-- Source array `effectCellTypes`. -/
def effectCellTypes : List GridCellType := [.SPEEDER, .LAVA, .MUD]

/-- Source hazard pick `effectCellTypes[Math.floor(Math.random() * 3)]`
(with `r ∈ [0, 1)` the index is always in range, so the `getD` default is
never used). -/
def hazardDraw (r : ℚ) : GridCellType :=
  effectCellTypes.getD (⌊r * 3⌋).toNat GridCellType.MUD

/-- Loop body of the generator for one cell: start/end cells are forced
Blank (consuming no draw); otherwise one draw decides Blank versus hazard
and, for a hazard, a second draw picks the type.  Returns the cell together
with the next stream position. -/
def buildCell (st en : ℤ × ℤ) (ratio : ℚ) (rnd : RandStream) (i j : ℤ) (k : ℕ) :
    GridCell × ℕ :=
  if (i = st.1 ∧ j = st.2) ∨ (i = en.1 ∧ j = en.2) then
    ({ id := cellId i j, type := .BLANK, x := worldCoord i, z := worldCoord j,
       gridX := i, gridZ := j }, k)
  else if (rnd k).1 < ratio then
    ({ id := cellId i j, type := .BLANK, x := worldCoord i, z := worldCoord j,
       gridX := i, gridZ := j }, k + 1)
  else
    ({ id := cellId i j, type := hazardDraw (rnd (k + 1)).1, x := worldCoord i,
       z := worldCoord j, gridX := i, gridZ := j }, k + 2)

/-- The inner `j` loop of the generator: `n` remaining cells of row `i`,
starting at column `j`, stream position `k`. -/
def buildRowAux (st en : ℤ × ℤ) (ratio : ℚ) (rnd : RandStream) (i : ℤ) :
    ℕ → ℤ → ℕ → List GridCell × ℕ
  | 0, _, k => ([], k)
  | n + 1, j, k =>
    let p := buildCell st en ratio rnd i j k
    let rest := buildRowAux st en ratio rnd i n (j + 1) p.2
    (p.1 :: rest.1, rest.2)

/-- The outer `i` loop of the generator: `n` remaining rows starting at row
`i`, stream position `k`. -/
def buildGridAux (st en : ℤ × ℤ) (ratio : ℚ) (rnd : RandStream) :
    ℕ → ℤ → ℕ → List (List GridCell) × ℕ
  | 0, _, k => ([], k)
  | n + 1, i, k =>
    let row := buildRowAux st en ratio rnd i GRID_SIZE.toNat 0 k
    let rest := buildGridAux st en ratio rnd n (i + 1) row.2
    (row.1 :: rest.1, rest.2)

/-- Source `initializeGameData(difficulty)`: pick the start cell (exclusion
arguments defaulted to -1), pick the end cell excluding the start cell, then
fill the `GRID_SIZE × GRID_SIZE` grid. -/
def initializeGameData (difficulty : DifficultyLevel) (rnd : RandStream) (fuel : ℕ) :
    Option (List (List GridCell) × (ℤ × ℤ) × (ℤ × ℤ)) :=
  match getRandomPerimeterCell rnd (-1) (-1) fuel 0 with
  | none => none
  | some (st, k1) =>
    match getRandomPerimeterCell rnd st.1 st.2 fuel k1 with
    | none => none
    | some (en, k2) =>
      some ((buildGridAux st en (DIFFICULTY_SETTINGS difficulty) rnd GRID_SIZE.toNat 0 k2).1,
        st, en)

/-- Source `resetGame(newDifficulty, stateToLoad?)`.  With a snapshot, every
state hook is restored from the snapshot (the difficulty comes from the
snapshot, not from the argument); without one, a fresh grid is generated and
the counters are reset to their initial constants.  Both branches then clear
`gameOver`, `timerGameOver` and `hasWon`. -/
def resetGame (newDifficulty : DifficultyLevel) (stateToLoad : Option GameState)
    (rnd : RandStream) (fuel : ℕ) : Option EngineState :=
  match stateToLoad with
  | some snap => some {
      gridData := snap.gridData
      playerStartPos := (snap.player.worldX, snap.player.worldZ)
      startMarkerPos := (worldCoord snap.game.startCell.1, worldCoord snap.game.startCell.2)
      endMarkerPos := (worldCoord snap.game.endCell.1, worldCoord snap.game.endCell.2)
      gridX := snap.player.gridX
      gridZ := snap.player.gridZ
      startCell := snap.game.startCell
      endCell := snap.game.endCell
      visitedCellTrail := setOfList snap.visitedCellTrail
      health := snap.player.health
      moves := snap.player.moves
      timeLeft := snap.game.timeLeft
      difficulty := snap.difficulty
      isFpsView := snap.game.isFpsView
      isOver := false
      hasWon := false
      timerGameOver := false
      lastMessage := "Game Loaded!" }
  | none =>
    match initializeGameData newDifficulty rnd fuel with
    | none => none
    | some (grid, st, en) => some {
        gridData := grid
        playerStartPos := (worldCoord st.1, worldCoord st.2)
        startMarkerPos := (worldCoord st.1, worldCoord st.2)
        endMarkerPos := (worldCoord en.1, worldCoord en.2)
        gridX := st.1
        gridZ := st.2
        startCell := st
        endCell := en
        visitedCellTrail := []
        health := INITIAL_PLAYER_HEALTH
        moves := INITIAL_PLAYER_MOVES
        timeLeft := GAME_DURATION_SECONDS
        difficulty := newDifficulty
        isFpsView := false
        isOver := false
        hasWon := false
        timerGameOver := false
        lastMessage := "Game Reset! Good luck!" }

/-- A stored snapshot document as it comes back from `JSON.parse`: any of
the required fields may be absent. -/
structure RawSnapshot where
  playerName : Option String
  difficulty : Option DifficultyLevel
  player : Option PlayerInfo
  game : Option GameInfo
  gridData : Option (List (List GridCell))
  visitedCellTrail : Option (List String)
  deriving DecidableEq

/-- The document missing none of its fields: what `JSON.parse` of the
`JSON.stringify` of a fully populated, finite `GameState` yields. -/
def encodeSnapshot (S : GameState) : RawSnapshot :=
  { playerName := some S.playerName
    difficulty := some S.difficulty
    player := some S.player
    game := some S.game
    gridData := some S.gridData
    visitedCellTrail := some S.visitedCellTrail }

/-- Decode step of source `handleLoadGame(pName)`: `none` when no document
is stored; otherwise the only check is `loadedData.playerName === pName`,
after which a missing (non-array) `visitedCellTrail` is silently replaced by
the empty array. -/
def handleLoadGame (stored : Option RawSnapshot) (pName : String) : Option RawSnapshot :=
  match stored with
  | none => none
  | some d =>
    if d.playerName = some pName then
      some { d with visitedCellTrail := some (d.visitedCellTrail.getD []) }
    else none

/-- Reading the loaded document as a `GameState` (the source's
`as GameState` assertion made explicit: it succeeds exactly when every
required field is present). -/
def fromRaw (d : RawSnapshot) : Option GameState :=
  match d.playerName, d.difficulty, d.player, d.game, d.gridData, d.visitedCellTrail with
  | some pn, some df, some pl, some gm, some gd, some tr =>
    some { playerName := pn, difficulty := df, player := pl, game := gm,
           gridData := gd, visitedCellTrail := tr }
  | _, _, _, _, _, _ => none

/-- Full decode path: `handleLoadGame` followed by the typed read. -/
def decodeSnapshot (stored : Option RawSnapshot) (pName : String) : Option GameState :=
  (handleLoadGame stored pName).bind fromRaw

/-- The cell produced by the perimeter sampler for one of the 100 equally
likely discrete draws: edge `e` uniform on the four edges, offset `o`
uniform on `[0, GRID_SIZE)`, fed through the source's edge switch (the draw
`e/4` satisfies `⌊(e/4)·4⌋ = e`, and `o/25` likewise). -/
def samplerCell (e : Fin 4) (o : Fin 25) : ℤ × ℤ :=
  perimeterFromDraws (((e : ℕ) : ℚ) / 4) (((o : ℕ) : ℚ) / 25)

/-- How many of the 100 equally likely `(edge, offset)` draws produce cell
`c`; the probability of `c` is `samplerCount c / 100`. -/
def samplerCount (c : ℤ × ℤ) : ℕ :=
  (Finset.univ.filter fun p : Fin 4 × Fin 25 => samplerCell p.1 p.2 = c).card

/-- Membership in the outer ring of the grid. -/
def onPerimeter (p : ℤ × ℤ) : Prop :=
  0 ≤ p.1 ∧ p.1 < GRID_SIZE ∧ 0 ≤ p.2 ∧ p.2 < GRID_SIZE ∧
    (p.1 = 0 ∨ p.1 = GRID_SIZE - 1 ∨ p.2 = 0 ∨ p.2 = GRID_SIZE - 1)

/-- Generation validity of one `initializeGameData` outcome: distinct
perimeter start/end cells, both holding Blank cells in the grid, every cell
typed from the four-element domain and carrying the affine world
coordinates.  (`none`, an execution stuck in the resampling loop, produces
no grid at all.) -/
def GenValid : Option (List (List GridCell) × (ℤ × ℤ) × (ℤ × ℤ)) → Prop
  | none => True
  | some (g, st, en) =>
    st ≠ en ∧ onPerimeter st ∧ onPerimeter en ∧
    (∃ c, cellAt g st.1 st.2 = some c ∧ c.type = GridCellType.BLANK) ∧
    (∃ c, cellAt g en.1 en.2 = some c ∧ c.type = GridCellType.BLANK) ∧
    ∀ row ∈ g, ∀ c ∈ row,
      (c.type = GridCellType.BLANK ∨ c.type = GridCellType.SPEEDER ∨
        c.type = GridCellType.LAVA ∨ c.type = GridCellType.MUD) ∧
      c.x = worldCoord c.gridX ∧ c.z = worldCoord c.gridZ

/-! Concrete cells and states used by the witness theorems. -/

/-- A Lava cell at grid position `(0, 0)`. -/
def lavaCell00 : GridCell :=
  { id := "cell-0-0", type := .LAVA, x := -12, z := -12, gridX := 0, gridZ := 0 }

/-- A Blank cell at grid position `(0, 0)`. -/
def blankCell00 : GridCell :=
  { id := "cell-0-0", type := .BLANK, x := -12, z := -12, gridX := 0, gridZ := 0 }

/-- A Lava cell at grid position `(0, 1)`. -/
def lavaCell01 : GridCell :=
  { id := "cell-0-1", type := .LAVA, x := -12, z := -11, gridX := 0, gridZ := 1 }

/-- Concrete Ongoing scenario: player at `(1, 1)`, the end cell `(0, 0)`
holding a Lava cell, health and moves low enough that the Lava effect would
end the game if it were applied. -/
def winScenario : EngineState :=
  { gridData := [[lavaCell00]]
    playerStartPos := (0, 0)
    startMarkerPos := (0, 0)
    endMarkerPos := (0, 0)
    gridX := 1
    gridZ := 1
    startCell := (5, 5)
    endCell := (0, 0)
    visitedCellTrail := []
    health := 10
    moves := 5
    timeLeft := 30
    difficulty := .easy
    isFpsView := false
    isOver := false
    hasWon := false
    timerGameOver := false
    lastMessage := "Game Started!" }

/-- Concrete terminal scenario: the timeout transition has been committed
with the player still mid-grid. -/
def timeoutScenario : EngineState :=
  { winScenario with isOver := true, timerGameOver := true, lastMessage := timeoutMessage }

/-- Concrete scenario from the spec: fresh counters (health 100, moves 200,
time 60), player on the start cell `(0, 0)`, a Lava cell at `(0, 1)`. -/
def lavaStepScenario : EngineState :=
  { winScenario with
    gridData := [[blankCell00, lavaCell01]]
    gridX := 0
    gridZ := 0
    startCell := (0, 0)
    endCell := (9, 9)
    health := 100
    moves := 200
    timeLeft := 60 }

/-- Concrete Ongoing scenario with one second on the clock. -/
def tickScenario : EngineState := { winScenario with timeLeft := 1 }

/-- A stored snapshot document with every required field present except
`visitedCellTrail`. -/
def trailMissingDoc : RawSnapshot :=
  { playerName := some "alice"
    difficulty := some .easy
    player := some { gridX := 0, gridZ := 0, worldX := -12, worldZ := -12,
                     health := 100, moves := 200 }
    game := some { timeLeft := 60, isFpsView := false, currentCellType := some .BLANK,
                   startCell := (0, 0), endCell := (24, 24), isOver := false,
                   hasWon := false, timerGameOver := false }
    gridData := some [[blankCell00]]
    visitedCellTrail := none }

/-- A concrete snapshot (`GameState`) used to witness the restore branch of
`resetGame`. -/
def sampleSnapshot : GameState :=
  { playerName := "alice"
    difficulty := .hell
    player := { gridX := 3, gridZ := 4, worldX := -9, worldZ := -8, health := 42, moves := 77 }
    game := { timeLeft := 13, isFpsView := true, currentCellType := some .MUD,
              startCell := (0, 5), endCell := (24, 7), isOver := true, hasWon := true,
              timerGameOver := true }
    gridData := [[lavaCell00]]
    visitedCellTrail := ["1,2", "1,3"]
    }

/-!
## Theorems

Helper evaluation lemmas first, then one theorem per claim (with its
witness or counterexample where applicable).
-/

/-- World coordinate `-12` (the world position of grid index 0) converts to
clamped grid index 0. -/
theorem clampGrid_neg12 : clampIndex (toGridIndex (-12)) = 0 := by
  norm_num [clampIndex, toGridIndex, mathRound, CELL_UNIT_SIZE, GRID_SIZE]

/-- World coordinate `-11` (the world position of grid index 1) converts to
clamped grid index 1. -/
theorem clampGrid_neg11 : clampIndex (toGridIndex (-11)) = 1 := by
  norm_num [clampIndex, toGridIndex, mathRound, CELL_UNIT_SIZE, GRID_SIZE]

/-- C4: the `CELL_EFFECTS` lookup is total over the four cell types (it is a
total function on the four-constructor inductive domain) and returns exactly
the fixed deltas: Blank `(0, -1)`, Speeder `(-5, 0)`, Lava `(-50, -10)`,
Mud `(-10, -5)`. -/
theorem c4_cell_effect_table :
    (CELL_EFFECTS .BLANK).healthChange = 0 ∧ (CELL_EFFECTS .BLANK).movesChange = -1 ∧
    (CELL_EFFECTS .SPEEDER).healthChange = -5 ∧ (CELL_EFFECTS .SPEEDER).movesChange = 0 ∧
    (CELL_EFFECTS .LAVA).healthChange = -50 ∧ (CELL_EFFECTS .LAVA).movesChange = -10 ∧
    (CELL_EFFECTS .MUD).healthChange = -10 ∧ (CELL_EFFECTS .MUD).movesChange = -5 := by
  decide

/-- C1: while the game is Ongoing, a position sample whose clamped grid
indices land on `endCell` (as a new cell that exists in the grid) commits
the `Won` transition and returns before the cell effect is looked up or
applied, so `health` and `moves` are unchanged by that step, whatever the
destination cell's effect would have been. -/
theorem c1_win_precedence (s : EngineState) (wx wz : ℚ) (c : GridCell)
    (hOver : s.isOver = false) (hWon : s.hasWon = false)
    (hcx : clampIndex (toGridIndex wx) = s.endCell.1)
    (hcz : clampIndex (toGridIndex wz) = s.endCell.2)
    (hne : ¬(s.endCell.1 = s.gridX ∧ s.endCell.2 = s.gridZ))
    (hcell : cellAt s.gridData s.endCell.1 s.endCell.2 = some c) :
    (onPositionSample s wx wz).hasWon = true ∧
    (onPositionSample s wx wz).isOver = true ∧
    (onPositionSample s wx wz).health = s.health ∧
    (onPositionSample s wx wz).moves = s.moves := by
  unfold onPositionSample
  rw [if_neg (by simp [hOver, hWon])]
  simp only [hcx, hcz]
  rw [if_neg hne]
  unfold applyCellStep
  rw [hcell]
  have hwin : s.endCell.1 = s.endCell.1 ∧ s.endCell.2 = s.endCell.2 := ⟨rfl, rfl⟩
  simp only [if_pos hwin]
  exact ⟨rfl, rfl, rfl, rfl⟩

/-- Witness for C1: in the concrete `winScenario` (health 10, moves 5, a
Lava cell on the end cell), the sample landing on the end cell yields `Won`
with health and moves untouched, although the Lava effect would have driven
health to -40. -/
theorem c1_win_precedence_witness :
    (onPositionSample winScenario (-12) (-12)).hasWon = true ∧
    (onPositionSample winScenario (-12) (-12)).isOver = true ∧
    (onPositionSample winScenario (-12) (-12)).health = 10 ∧
    (onPositionSample winScenario (-12) (-12)).moves = 5 := by
  obtain ⟨h1, h2, h3, h4⟩ :=
    c1_win_precedence winScenario (-12) (-12) lavaCell00 rfl rfl
      (clampGrid_neg12.trans rfl) (clampGrid_neg12.trans rfl)
      (by decide) (by decide)
  exact ⟨h1, h2, h3.trans rfl, h4.trans rfl⟩

/-- C2: once a terminal state has been entered (`isOver`, `hasWon` or
`timerGameOver` set — in every state the engine can reach, `timerGameOver`
is only ever set together with `isOver`, which the first hypothesis
records), every later position sample and every later clock tick leaves the
whole state — in particular `health`, `moves`, `timeLeft` and the terminal
flags — unchanged; in particular a sample landing on `endCell` after a
timeout does not set `Won`. -/
theorem c2_terminal_idempotence (s : EngineState) (wx wz : ℚ)
    (hinv : s.timerGameOver = true → s.isOver = true)
    (hterm : s.isOver = true ∨ s.hasWon = true ∨ s.timerGameOver = true) :
    onPositionSample s wx wz = s ∧ onClockTick s = s := by
  have hguard : s.isOver = true ∨ s.hasWon = true := by
    rcases hterm with h | h | h
    · exact Or.inl h
    · exact Or.inr h
    · exact Or.inl (hinv h)
  refine ⟨?_, ?_⟩
  · unfold onPositionSample
    rw [if_pos hguard]
  · unfold onClockTick
    rcases hguard with h | h
    · rw [if_pos (Or.inl h)]
    · rw [if_pos (Or.inr (Or.inl h))]

/-- Witness for C2: in the concrete `timeoutScenario` (LostTimeout, player
mid-grid) a later sample whose coordinates land exactly on the end cell and
a later clock tick both leave the state unchanged — `hasWon` stays false. -/
theorem c2_terminal_idempotence_witness :
    (timeoutScenario.timerGameOver = true → timeoutScenario.isOver = true) ∧
    (timeoutScenario.isOver = true ∨ timeoutScenario.hasWon = true ∨
      timeoutScenario.timerGameOver = true) ∧
    (onPositionSample timeoutScenario (-12) (-12) = timeoutScenario ∧
      onClockTick timeoutScenario = timeoutScenario) :=
  ⟨by decide, by decide,
    c2_terminal_idempotence timeoutScenario (-12) (-12) (by decide) (by decide)⟩

/-- C3: the game-tick contract while Ongoing.  The sampled position is
converted per axis by `clampIndex (toGridIndex ·)` — that is,
`round(world / cellUnitSize + sideLength/2 - 0.5)` clamped to
`[0, sideLength - 1]`.  A sample landing on the current cell changes
nothing; otherwise, on a non-end cell present in the grid, the cell's
`CELL_EFFECTS` deltas are added to health and moves without clamping, and
the engine ends the game as LostHealth when the new health is ≤ 0, else as
LostMoves when the new moves are ≤ 0, and stays Ongoing otherwise. -/
theorem c3_position_step (s : EngineState) (wx wz : ℚ)
    (hOver : s.isOver = false) (hWon : s.hasWon = false) (hTimer : s.timerGameOver = false) :
    ((clampIndex (toGridIndex wx) = s.gridX ∧ clampIndex (toGridIndex wz) = s.gridZ) →
       onPositionSample s wx wz = s)
    ∧ (∀ c : GridCell,
        ¬(clampIndex (toGridIndex wx) = s.gridX ∧ clampIndex (toGridIndex wz) = s.gridZ) →
        ¬(clampIndex (toGridIndex wx) = s.endCell.1 ∧ clampIndex (toGridIndex wz) = s.endCell.2) →
        cellAt s.gridData (clampIndex (toGridIndex wx)) (clampIndex (toGridIndex wz)) = some c →
        (onPositionSample s wx wz).health = s.health + (CELL_EFFECTS c.type).healthChange
        ∧ (onPositionSample s wx wz).moves = s.moves + (CELL_EFFECTS c.type).movesChange
        ∧ (onPositionSample s wx wz).hasWon = false
        ∧ (onPositionSample s wx wz).timerGameOver = false
        ∧ (onPositionSample s wx wz).timeLeft = s.timeLeft
        ∧ ((onPositionSample s wx wz).health ≤ 0 →
            (onPositionSample s wx wz).isOver = true ∧
            (onPositionSample s wx wz).lastMessage = healthLossMessage)
        ∧ (0 < (onPositionSample s wx wz).health → (onPositionSample s wx wz).moves ≤ 0 →
            (onPositionSample s wx wz).isOver = true ∧
            (onPositionSample s wx wz).lastMessage = movesLossMessage)
        ∧ (0 < (onPositionSample s wx wz).health → 0 < (onPositionSample s wx wz).moves →
            (onPositionSample s wx wz).isOver = false)) := by
  constructor
  · intro hsame
    unfold onPositionSample
    rw [if_neg (by simp [hOver, hWon]), if_pos hsame]
  · intro c hne hnotEnd hcell
    have hstep : onPositionSample s wx wz =
        applyCellStep s (clampIndex (toGridIndex wx)) (clampIndex (toGridIndex wz)) := by
      unfold onPositionSample
      rw [if_neg (by simp [hOver, hWon]), if_neg hne]
    rw [hstep]
    unfold applyCellStep
    rw [hcell]
    dsimp only
    rw [if_neg hnotEnd]
    refine ⟨rfl, rfl, hWon, hTimer, rfl, ?_, ?_, ?_⟩
    · intro h1
      replace h1 : s.health + (CELL_EFFECTS c.type).healthChange ≤ 0 := h1
      constructor <;> simp [h1, hOver, hWon, hTimer, healthLossMessage, movesLossMessage]
    · intro h1 h2
      replace h1 : 0 < s.health + (CELL_EFFECTS c.type).healthChange := h1
      replace h2 : s.moves + (CELL_EFFECTS c.type).movesChange ≤ 0 := h2
      constructor <;>
        simp [h2, not_le.mpr h1, hOver, hWon, hTimer, healthLossMessage, movesLossMessage]
    · intro h1 h2
      replace h1 : 0 < s.health + (CELL_EFFECTS c.type).healthChange := h1
      replace h2 : 0 < s.moves + (CELL_EFFECTS c.type).movesChange := h2
      simp [not_le.mpr h1, not_le.mpr h2, hOver, hWon, hTimer]

/-- Witness for C3: the spec scenario.  From health 100, moves 200, one
step from the start cell onto the Lava cell at `(0, 1)` yields health 50,
moves 190 and the game stays Ongoing; and a sample landing back on the
current cell is a no-op. -/
theorem c3_position_step_witness :
    (onPositionSample lavaStepScenario (-12) (-11)).health = 50 ∧
    (onPositionSample lavaStepScenario (-12) (-11)).moves = 190 ∧
    (onPositionSample lavaStepScenario (-12) (-11)).isOver = false ∧
    onPositionSample lavaStepScenario (-12) (-12) = lavaStepScenario := by
  have hb := (c3_position_step lavaStepScenario (-12) (-11) rfl rfl rfl).2 lavaCell01
    (by rw [clampGrid_neg12, clampGrid_neg11]; decide)
    (by rw [clampGrid_neg12, clampGrid_neg11]; decide)
    (by rw [clampGrid_neg12, clampGrid_neg11]; decide)
  have ha := (c3_position_step lavaStepScenario (-12) (-12) rfl rfl rfl).1
    (by rw [clampGrid_neg12]; exact ⟨rfl, rfl⟩)
  refine ⟨hb.1.trans (by decide), hb.2.1.trans (by decide), ?_, ha⟩
  exact hb.2.2.2.2.2.2.2 (by rw [hb.1]; decide) (by rw [hb.2.1]; decide)

/-- Helper: one clock tick never makes a nonnegative `timeLeft` negative. -/
theorem onClockTick_timeLeft_nonneg (s : EngineState) (h : 0 ≤ s.timeLeft) :
    0 ≤ (onClockTick s).timeLeft := by
  unfold onClockTick
  split_ifs with h1 h2
  · exact h
  · exact h
  · dsimp only
    omega

/-- C10: the clock-tick loop is safe.  From any state with `timeLeft ≥ 0`,
one tick (and hence any number of iterated ticks) keeps `timeLeft ≥ 0`;
the one-second decrement happens exactly in Ongoing states with
`timeLeft > 0`; and the LostTimeout transition (`timerGameOver` and
`isOver` both set) is committed exactly when an Ongoing state is ticked at
`timeLeft = 0`, leaving `timeLeft` at 0. -/
theorem c10_clock_safety (s : EngineState) (h0 : 0 ≤ s.timeLeft) :
    0 ≤ (onClockTick s).timeLeft
    ∧ (∀ n : ℕ, 0 ≤ (onClockTick^[n] s).timeLeft)
    ∧ ((s.isOver = false ∧ s.hasWon = false ∧ s.timerGameOver = false ∧ 0 < s.timeLeft) →
        (onClockTick s).timeLeft = s.timeLeft - 1 ∧
        (onClockTick s).timerGameOver = false ∧ (onClockTick s).isOver = false)
    ∧ (¬(s.isOver = false ∧ s.hasWon = false ∧ s.timerGameOver = false ∧ 0 < s.timeLeft) →
        (onClockTick s).timeLeft = s.timeLeft)
    ∧ ((s.isOver = false ∧ s.hasWon = false ∧ s.timerGameOver = false ∧ s.timeLeft = 0) →
        (onClockTick s).timerGameOver = true ∧ (onClockTick s).isOver = true ∧
        (onClockTick s).timeLeft = 0) := by
  have hiter : ∀ (t : EngineState), 0 ≤ t.timeLeft → ∀ n : ℕ,
      0 ≤ (onClockTick^[n] t).timeLeft := by
    intro t ht n
    induction n generalizing t with
    | zero => simpa using ht
    | succ n ih =>
      rw [Function.iterate_succ_apply]
      exact ih _ (onClockTick_timeLeft_nonneg t ht)
  refine ⟨onClockTick_timeLeft_nonneg s h0, hiter s h0, ?_, ?_, ?_⟩
  · rintro ⟨ha, hb, hc, hd⟩
    unfold onClockTick
    rw [if_neg (by simp [ha, hb, hc]), if_neg (by omega)]
    exact ⟨rfl, hc, ha⟩
  · intro hnot
    unfold onClockTick
    by_cases hterm : s.isOver = true ∨ s.hasWon = true ∨ s.timerGameOver = true
    · rw [if_pos hterm]
    · rw [if_neg hterm]
      have ha : s.isOver = false := by
        cases h : s.isOver
        · rfl
        · exact absurd (Or.inl h) hterm
      have hb : s.hasWon = false := by
        cases h : s.hasWon
        · rfl
        · exact absurd (Or.inr (Or.inl h)) hterm
      have hc : s.timerGameOver = false := by
        cases h : s.timerGameOver
        · rfl
        · exact absurd (Or.inr (Or.inr h)) hterm
      have hle : s.timeLeft ≤ 0 := by
        by_contra hgt
        exact hnot ⟨ha, hb, hc, by omega⟩
      rw [if_pos hle]
  · rintro ⟨ha, hb, hc, hd⟩
    unfold onClockTick
    rw [if_neg (by simp [ha, hb, hc]), if_pos (le_of_eq hd)]
    exact ⟨rfl, rfl, hd⟩

/-- Witness for C10: in the concrete `tickScenario` (Ongoing, one second
left) the hypothesis holds and a tick keeps `timeLeft` nonnegative. -/
theorem c10_clock_safety_witness :
    0 ≤ tickScenario.timeLeft ∧ 0 ≤ (onClockTick tickScenario).timeLeft :=
  ⟨by decide, (c10_clock_safety tickScenario (by decide)).1⟩

/-- Helper: `getRandomInt` maps a draw in `[0, 1)` into `[lo, hi)`. -/
theorem randInt_mem (r : ℚ) (h0 : 0 ≤ r) (h1 : r < 1) (lo hi : ℤ) (hlt : lo < hi) :
    lo ≤ randInt r lo hi ∧ randInt r lo hi < hi := by
  unfold randInt
  constructor
  · apply Int.le_floor.mpr
    have hpos : (0 : ℚ) ≤ (hi : ℚ) - (lo : ℚ) := by
      have hc : (lo : ℚ) ≤ (hi : ℚ) := by exact_mod_cast hlt.le
      linarith
    nlinarith
  · apply Int.floor_lt.mpr
    have hpos : (0 : ℚ) < (hi : ℚ) - (lo : ℚ) := by
      have hc : (lo : ℚ) < (hi : ℚ) := by exact_mod_cast hlt
      linarith
    nlinarith

/-- Helper: the edge switch always lands on the outer ring. -/
theorem perimeterFromDraws_spec (e o : ℚ) (he0 : 0 ≤ e) (he1 : e < 1)
    (ho0 : 0 ≤ o) (ho1 : o < 1) : onPerimeter (perimeterFromDraws e o) := by
  obtain ⟨hoff0, hoff1⟩ := randInt_mem o ho0 ho1 0 GRID_SIZE (by norm_num [GRID_SIZE])
  obtain ⟨hedge0, hedge1⟩ := randInt_mem e he0 he1 0 4 (by norm_num)
  unfold perimeterFromDraws onPerimeter
  dsimp only
  by_cases hc0 : randInt e 0 4 = 0
  · rw [if_pos hc0]
    exact ⟨hoff0, hoff1, le_refl 0, by norm_num [GRID_SIZE], Or.inr (Or.inr (Or.inl rfl))⟩
  rw [if_neg hc0]
  by_cases hc1 : randInt e 0 4 = 1
  · rw [if_pos hc1]
    exact ⟨hoff0, hoff1, by norm_num [GRID_SIZE], by norm_num [GRID_SIZE],
      Or.inr (Or.inr (Or.inr rfl))⟩
  rw [if_neg hc1]
  by_cases hc2 : randInt e 0 4 = 2
  · rw [if_pos hc2]
    exact ⟨le_refl 0, by norm_num [GRID_SIZE], hoff0, hoff1, Or.inl rfl⟩
  · rw [if_neg hc2]
    exact ⟨by norm_num [GRID_SIZE], by norm_num [GRID_SIZE], hoff0, hoff1,
      Or.inr (Or.inl rfl)⟩

/-- Helper: a successful `getRandomPerimeterCell` call returns a perimeter
cell different from the excluded cell (do-while exit condition). -/
theorem getRandomPerimeterCell_spec (rnd : RandStream) (exX exZ : ℤ) (fuel : ℕ) :
    ∀ (k : ℕ) (res : (ℤ × ℤ) × ℕ),
      getRandomPerimeterCell rnd exX exZ fuel k = some res →
      onPerimeter res.1 ∧ ¬(res.1.1 = exX ∧ res.1.2 = exZ) := by
  induction fuel with
  | zero => intro k res h; simp [getRandomPerimeterCell] at h
  | succ fuel ih =>
    intro k res h
    unfold getRandomPerimeterCell at h
    dsimp only at h
    split_ifs at h with hc
    · exact ih (k + 2) res h
    · obtain rfl : (perimeterFromDraws (rnd k).1 (rnd (k + 1)).1, k + 2) = res :=
        Option.some.inj h
      exact ⟨perimeterFromDraws_spec _ _ (rnd k).2.1 (rnd k).2.2
        (rnd (k + 1)).2.1 (rnd (k + 1)).2.2, hc⟩

/-- Helper: the shape of any cell produced by `buildCell`: correct grid
indices, the affine world coordinates, and forced Blank on the start or end
cell. -/
theorem buildCell_spec (st en : ℤ × ℤ) (ratio : ℚ) (rnd : RandStream) (i j : ℤ) (k : ℕ) :
    (buildCell st en ratio rnd i j k).1.gridX = i ∧
    (buildCell st en ratio rnd i j k).1.gridZ = j ∧
    (buildCell st en ratio rnd i j k).1.x = worldCoord i ∧
    (buildCell st en ratio rnd i j k).1.z = worldCoord j ∧
    (((i = st.1 ∧ j = st.2) ∨ (i = en.1 ∧ j = en.2)) →
      (buildCell st en ratio rnd i j k).1.type = GridCellType.BLANK) := by
  unfold buildCell
  split_ifs with h1 h2 <;> simp_all

/-- Helper: indexed access into a generated row. -/
theorem buildRowAux_get (st en : ℤ × ℤ) (ratio : ℚ) (rnd : RandStream) (i : ℤ) (n : ℕ) :
    ∀ (j : ℤ) (k m : ℕ), m < n →
      ∃ (k' : ℕ) (c : GridCell),
        ((buildRowAux st en ratio rnd i n j k).1)[m]? = some c ∧
        c = (buildCell st en ratio rnd i (j + (m : ℤ)) k').1 := by
  induction n with
  | zero => intro j k m hm; omega
  | succ n ih =>
    intro j k m hm
    cases m with
    | zero =>
      refine ⟨k, (buildCell st en ratio rnd i j k).1, ?_, by norm_num⟩
      simp [buildRowAux]
    | succ m =>
      obtain ⟨k', c, hc, hceq⟩ := ih (j + 1) (buildCell st en ratio rnd i j k).2 m (by omega)
      refine ⟨k', c, ?_, ?_⟩
      · simpa [buildRowAux] using hc
      · rw [hceq]
        congr 1
        push_cast
        ring_nf

/-- Helper: every member of a generated row is some `buildCell` output for
row `i`. -/
theorem buildRowAux_mem (st en : ℤ × ℤ) (ratio : ℚ) (rnd : RandStream) (i : ℤ) (n : ℕ) :
    ∀ (j : ℤ) (k : ℕ) (c : GridCell), c ∈ (buildRowAux st en ratio rnd i n j k).1 →
      ∃ (j' : ℤ) (k' : ℕ), c = (buildCell st en ratio rnd i j' k').1 := by
  induction n with
  | zero => intro j k c hc; simp [buildRowAux] at hc
  | succ n ih =>
    intro j k c hc
    rw [buildRowAux] at hc
    rcases List.mem_cons.mp hc with h | h
    · exact ⟨j, k, h⟩
    · exact ih (j + 1) _ c h

/-- Helper: indexed access into the generated grid: row `m` is a
`buildRowAux` output for row index `i + m`. -/
theorem buildGridAux_get (st en : ℤ × ℤ) (ratio : ℚ) (rnd : RandStream) (n : ℕ) :
    ∀ (i : ℤ) (k m : ℕ), m < n →
      ∃ (k' : ℕ),
        ((buildGridAux st en ratio rnd n i k).1)[m]? =
          some (buildRowAux st en ratio rnd (i + (m : ℤ)) GRID_SIZE.toNat 0 k').1 := by
  induction n with
  | zero => intro i k m hm; omega
  | succ n ih =>
    intro i k m hm
    cases m with
    | zero =>
      refine ⟨k, ?_⟩
      simp [buildGridAux]
    | succ m =>
      obtain ⟨k', hrow⟩ :=
        ih (i + 1) (buildRowAux st en ratio rnd i GRID_SIZE.toNat 0 k).2 m (by omega)
      refine ⟨k', ?_⟩
      rw [buildGridAux]
      dsimp only
      rw [List.getElem?_cons_succ, hrow]
      congr 2
      push_cast
      ring_nf

/-- Helper: every member row of the generated grid is some `buildRowAux`
output starting at column 0. -/
theorem buildGridAux_mem (st en : ℤ × ℤ) (ratio : ℚ) (rnd : RandStream) (n : ℕ) :
    ∀ (i : ℤ) (k : ℕ) (row : List GridCell), row ∈ (buildGridAux st en ratio rnd n i k).1 →
      ∃ (i' : ℤ) (k' : ℕ), row = (buildRowAux st en ratio rnd i' GRID_SIZE.toNat 0 k').1 := by
  induction n with
  | zero => intro i k row hrow; simp [buildGridAux] at hrow
  | succ n ih =>
    intro i k row hrow
    rw [buildGridAux] at hrow
    rcases List.mem_cons.mp hrow with h | h
    · exact ⟨i, k, h⟩
    · exact ih (i + 1) _ row h

/-- Helper: the cell stored at in-range indices `(x, z)` of the generated
grid is the `buildCell` output for `(x, z)`. -/
theorem buildGrid_cellAt (st en : ℤ × ℤ) (ratio : ℚ) (rnd : RandStream) (k : ℕ) (x z : ℤ)
    (hx0 : 0 ≤ x) (hx : x < GRID_SIZE) (hz0 : 0 ≤ z) (hz : z < GRID_SIZE) :
    ∃ (k' : ℕ) (c : GridCell),
      cellAt (buildGridAux st en ratio rnd GRID_SIZE.toNat 0 k).1 x z = some c ∧
      c = (buildCell st en ratio rnd x z k').1 := by
  have h25 : GRID_SIZE = 25 := rfl
  obtain ⟨k1, hrow⟩ := buildGridAux_get st en ratio rnd GRID_SIZE.toNat 0 k x.toNat
    (by rw [h25] at hx ⊢; omega)
  obtain ⟨k2, c, hc, hceq⟩ := buildRowAux_get st en ratio rnd ((0 : ℤ) + (x.toNat : ℤ))
    GRID_SIZE.toNat 0 k1 z.toNat (by rw [h25] at hz ⊢; omega)
  have hxx : (0 : ℤ) + (x.toNat : ℤ) = x := by omega
  have hzz : (0 : ℤ) + (z.toNat : ℤ) = z := by omega
  rw [hxx, hzz] at hceq
  exact ⟨k2, c, by unfold cellAt; rw [if_pos ⟨hx0, hz0⟩, hrow]; simpa using hc, hceq⟩

/-- Helper: the four-element domain of cell types. -/
theorem gridCellType_cases (t : GridCellType) :
    t = GridCellType.BLANK ∨ t = GridCellType.SPEEDER ∨
      t = GridCellType.LAVA ∨ t = GridCellType.MUD := by
  cases t <;> simp

/-- C5: for every difficulty and every outcome of the randomness source,
whenever grid generation returns at all it returns `startCell ≠ endCell`,
both on the grid perimeter, both holding Blank cells, every cell typed from
the four-element domain, and every cell's world coordinates equal to
`(index - sideLength/2 + 0.5) * cellUnitSize` on each axis. -/
theorem c5_generation_validity (d : DifficultyLevel) (rnd : RandStream) (fuel : ℕ) :
    GenValid (initializeGameData d rnd fuel) := by
  unfold initializeGameData
  rcases h1 : getRandomPerimeterCell rnd (-1) (-1) fuel 0 with _ | ⟨st, k1⟩
  · trivial
  dsimp only
  rcases h2 : getRandomPerimeterCell rnd st.1 st.2 fuel k1 with _ | ⟨en, k2⟩
  · trivial
  dsimp only
  obtain ⟨hpst, -⟩ := getRandomPerimeterCell_spec rnd (-1) (-1) fuel 0 (st, k1) h1
  obtain ⟨hpen, hneq⟩ := getRandomPerimeterCell_spec rnd st.1 st.2 fuel k1 (en, k2) h2
  simp only [GenValid]
  refine ⟨?_, hpst, hpen, ?_, ?_, ?_⟩
  · intro he
    exact hneq ⟨by rw [he], by rw [he]⟩
  · obtain ⟨k', c, hc, hceq⟩ := buildGrid_cellAt st en (DIFFICULTY_SETTINGS d) rnd k2
      st.1 st.2 hpst.1 hpst.2.1 hpst.2.2.1 hpst.2.2.2.1
    refine ⟨c, hc, ?_⟩
    rw [hceq]
    exact (buildCell_spec st en (DIFFICULTY_SETTINGS d) rnd st.1 st.2 k').2.2.2.2
      (Or.inl ⟨rfl, rfl⟩)
  · obtain ⟨k', c, hc, hceq⟩ := buildGrid_cellAt st en (DIFFICULTY_SETTINGS d) rnd k2
      en.1 en.2 hpen.1 hpen.2.1 hpen.2.2.1 hpen.2.2.2.1
    refine ⟨c, hc, ?_⟩
    rw [hceq]
    exact (buildCell_spec st en (DIFFICULTY_SETTINGS d) rnd en.1 en.2 k').2.2.2.2
      (Or.inr ⟨rfl, rfl⟩)
  · intro row hrow c hc
    obtain ⟨i', k', hroweq⟩ :=
      buildGridAux_mem st en (DIFFICULTY_SETTINGS d) rnd GRID_SIZE.toNat 0 k2 row hrow
    subst hroweq
    obtain ⟨j', k'', hceq⟩ :=
      buildRowAux_mem st en (DIFFICULTY_SETTINGS d) rnd i' GRID_SIZE.toNat 0 k' c hc
    subst hceq
    obtain ⟨hgx, hgz, hcx, hcz, -⟩ :=
      buildCell_spec st en (DIFFICULTY_SETTINGS d) rnd i' j' k''
    exact ⟨gridCellType_cases _, by rw [hcx, hgx], by rw [hcz, hgz]⟩

/-- Helper: inserting a duplicate-free list into a duplicate-free
accumulator reproduces the concatenation. -/
theorem foldl_setInsert_of_nodup (l : List String) :
    ∀ acc : List String, (acc ++ l).Nodup → List.foldl setInsert acc l = acc ++ l := by
  induction l with
  | nil => intro acc h; simp
  | cons x l ih =>
    intro acc h
    have hx : x ∉ acc := by
      intro hmem
      exact (List.nodup_append.mp h).2.2 hmem (List.mem_cons_self x l)
    rw [List.foldl_cons, setInsert, if_neg hx]
    have h' : ((acc ++ [x]) ++ l).Nodup := by simpa [List.append_assoc] using h
    rw [ih (acc ++ [x]) h']
    simp

/-- Helper: `new Set(array)` reproduces a duplicate-free array verbatim. -/
theorem setOfList_eq_self (l : List String) (h : l.Nodup) : setOfList l = l := by
  simpa [setOfList] using foldl_setInsert_of_nodup l [] (by simpa using h)

/-- C6: `resetGame`.  With a snapshot, every `GameState` field is restored
verbatim from the snapshot (the grid, the player position and counters, the
clock, the difficulty, the view flag, the two marker cells and — for the
duplicate-free trail a valid snapshot carries — the visited trail) and the
state is Ongoing with all three terminal flags cleared, whatever the
snapshot's stored flags were.  Without a snapshot, whenever generation
returns, the state holds the fresh grid with the player on its start cell,
health 100, moves 200, timeLeft 60, a cleared trail, and all terminal flags
cleared. -/
theorem c6_reset_restores_or_initializes (d : DifficultyLevel) (snap : GameState)
    (rnd : RandStream) (fuel : ℕ) :
    ((resetGame d (some snap) rnd fuel).elim True fun s =>
      s.gridData = snap.gridData ∧
      s.playerStartPos = (snap.player.worldX, snap.player.worldZ) ∧
      s.gridX = snap.player.gridX ∧ s.gridZ = snap.player.gridZ ∧
      s.health = snap.player.health ∧ s.moves = snap.player.moves ∧
      s.timeLeft = snap.game.timeLeft ∧ s.difficulty = snap.difficulty ∧
      s.isFpsView = snap.game.isFpsView ∧
      s.startCell = snap.game.startCell ∧ s.endCell = snap.game.endCell ∧
      (snap.visitedCellTrail.Nodup → s.visitedCellTrail = snap.visitedCellTrail) ∧
      s.isOver = false ∧ s.hasWon = false ∧ s.timerGameOver = false)
    ∧ ((resetGame d none rnd fuel).elim True fun s =>
      s.health = 100 ∧ s.moves = 200 ∧ s.timeLeft = 60 ∧
      s.visitedCellTrail = [] ∧ s.difficulty = d ∧ s.isFpsView = false ∧
      s.isOver = false ∧ s.hasWon = false ∧ s.timerGameOver = false ∧
      ∃ st en, initializeGameData d rnd fuel = some (s.gridData, st, en) ∧
        s.startCell = st ∧ s.endCell = en ∧ s.gridX = st.1 ∧ s.gridZ = st.2) := by
  constructor
  · exact ⟨rfl, rfl, rfl, rfl, rfl, rfl, rfl, rfl, rfl, rfl, rfl,
      fun hnd => setOfList_eq_self _ hnd, rfl, rfl, rfl⟩
  · rcases h : initializeGameData d rnd fuel with _ | ⟨grid, st, en⟩
    · unfold resetGame
      rw [h]
      trivial
    · unfold resetGame
      rw [h]
      exact ⟨rfl, rfl, rfl, rfl, rfl, rfl, rfl, rfl, rfl, st, en, rfl, rfl, rfl, rfl, rfl⟩

/-- Helper: `onPositionSample` preserves the invariant that `timerGameOver`
implies `isOver` (so C2's first hypothesis holds in every reachable state). -/
theorem flagInv_onPositionSample (s : EngineState) (wx wz : ℚ)
    (h : s.timerGameOver = true → s.isOver = true) :
    (onPositionSample s wx wz).timerGameOver = true →
      (onPositionSample s wx wz).isOver = true := by
  unfold onPositionSample
  dsimp only
  split_ifs with h1 h2
  · exact h
  · exact h
  · unfold applyCellStep
    rcases hc : cellAt s.gridData (clampIndex (toGridIndex wx)) (clampIndex (toGridIndex wz))
      with _ | c
    · exact h
    · dsimp only
      split_ifs <;> intro ht <;> first | rfl | exact h ht

/-- Helper: `onClockTick` preserves the invariant that `timerGameOver`
implies `isOver`. -/
theorem flagInv_onClockTick (s : EngineState)
    (h : s.timerGameOver = true → s.isOver = true) :
    (onClockTick s).timerGameOver = true → (onClockTick s).isOver = true := by
  unfold onClockTick
  split_ifs with h1 h2
  · exact h
  · intro _
    rfl
  · exact h

/-- Helper: both branches of `resetGame` establish the invariant that
`timerGameOver` implies `isOver` (both flags are cleared). -/
theorem flagInv_resetGame (d : DifficultyLevel) (snap : Option GameState)
    (rnd : RandStream) (fuel : ℕ) (s : EngineState)
    (h : resetGame d snap rnd fuel = some s) :
    s.timerGameOver = false ∧ s.isOver = false := by
  rcases snap with _ | snap
  · unfold resetGame at h
    rcases hg : initializeGameData d rnd fuel with _ | ⟨grid, st, en⟩ <;> rw [hg] at h
    · exact absurd h (by simp)
    · obtain rfl := Option.some.inj h
      exact ⟨rfl, rfl⟩
  · obtain rfl := Option.some.inj h
    exact ⟨rfl, rfl⟩

/-- Helper: computing integer floors of scaled fractions `⌊(m/n)·n⌋ = m`. -/
theorem floor_cast_div_mul (m n : ℕ) (hn : (n : ℚ) ≠ 0) : ⌊((m : ℚ) / n) * n⌋ = m := by
  rw [div_mul_cancel₀ _ hn, Int.floor_natCast]

/-- Helper: evaluation of `samplerCell` to a pure integer case split on the
edge index. -/
theorem samplerCell_eval (e : Fin 4) (o : Fin 25) :
    samplerCell e o =
      if (e : ℕ) = 0 then (((o : ℕ) : ℤ), 0)
      else if (e : ℕ) = 1 then (((o : ℕ) : ℤ), 24)
      else if (e : ℕ) = 2 then ((0 : ℤ), ((o : ℕ) : ℤ))
      else ((24 : ℤ), ((o : ℕ) : ℤ)) := by
  have hoff : randInt (((o : ℕ) : ℚ) / 25) 0 GRID_SIZE = ((o : ℕ) : ℤ) := by
    have h := floor_cast_div_mul (o : ℕ) 25 (by norm_num)
    simp only [randInt, GRID_SIZE]
    push_cast
    rw [sub_zero, add_zero]
    exact_mod_cast h
  fin_cases e <;> simp_all [samplerCell, perimeterFromDraws, randInt, GRID_SIZE]

/-- Helper: `samplerCount` transferred to the integer case split (so the
kernel can count without rational arithmetic). -/
theorem samplerCount_eq (c : ℤ × ℤ) :
    samplerCount c =
      (Finset.univ.filter fun p : Fin 4 × Fin 25 =>
        (if (p.1 : ℕ) = 0 then (((p.2 : ℕ) : ℤ), (0 : ℤ))
         else if (p.1 : ℕ) = 1 then (((p.2 : ℕ) : ℤ), 24)
         else if (p.1 : ℕ) = 2 then ((0 : ℤ), ((p.2 : ℕ) : ℤ))
         else ((24 : ℤ), ((p.2 : ℕ) : ℤ))) = c).card := by
  unfold samplerCount
  congr 1
  apply Finset.filter_congr
  intro p _
  rw [samplerCell_eval]

/-- Counterexample to C7: the corner `(0, 0)` is produced by 2 of the 100
equally likely `(edge, offset)` draws while the perimeter cell `(5, 0)` is
produced by exactly 1, so the two perimeter cells have different
probabilities — and neither equals `1/96`, the uniform probability over the
`4·25 - 4 = 96` perimeter cells. -/
theorem c7_uniformity_counterexample :
    samplerCount (0, 0) = 2 ∧ samplerCount (5, 0) = 1 ∧
    ((samplerCount (0, 0) : ℚ) / 100 ≠ (samplerCount (5, 0) : ℚ) / 100) ∧
    ((samplerCount (0, 0) : ℚ) / 100 ≠ 1 / 96) ∧
    ((samplerCount (5, 0) : ℚ) / 100 ≠ 1 / 96) := by
  have h1 : samplerCount (0, 0) = 2 := by rw [samplerCount_eq]; decide
  have h2 : samplerCount (5, 0) = 1 := by rw [samplerCount_eq]; decide
  refine ⟨h1, h2, ?_, ?_, ?_⟩
  · rw [h1, h2]; norm_num
  · rw [h1]; norm_num
  · rw [h2]; norm_num

/-- C7 amended: the perimeter sampler is uniform over the 100
`(edge, offset)` draws, not over the 96 perimeter cells: each of the four
corner cells is produced by 2 of the 100 draws, every other perimeter cell
by exactly 1 (the four conjuncts cover the four edges `z = 0`, `z = 24`,
`x = 0`, `x = 24`, hence every perimeter cell). -/
theorem c7_sampler_distribution (o : Fin 25) :
    (samplerCount (((o : ℕ) : ℤ), 0) = if (o : ℕ) = 0 ∨ (o : ℕ) = 24 then 2 else 1) ∧
    (samplerCount (((o : ℕ) : ℤ), 24) = if (o : ℕ) = 0 ∨ (o : ℕ) = 24 then 2 else 1) ∧
    (samplerCount ((0 : ℤ), ((o : ℕ) : ℤ)) = if (o : ℕ) = 0 ∨ (o : ℕ) = 24 then 2 else 1) ∧
    (samplerCount ((24 : ℤ), ((o : ℕ) : ℤ)) = if (o : ℕ) = 0 ∨ (o : ℕ) = 24 then 2 else 1) := by
  refine ⟨?_, ?_, ?_, ?_⟩ <;>
    (rw [samplerCount_eq]; fin_cases o <;> decide)

/-- C8 amended: the load path's only gate is the player-name match — a
stored document with a missing required field is not rejected, and a
missing (non-array) `visitedCellTrail` is silently replaced by the empty
array; an absent document or a name mismatch yields `none` (no descriptive
validation error distinguishes the cases). -/
theorem c8_load_validation (d : RawSnapshot) (p : String) :
    (d.playerName = some p →
      handleLoadGame (some d) p =
        some { d with visitedCellTrail := some (d.visitedCellTrail.getD []) })
    ∧ (d.playerName ≠ some p → handleLoadGame (some d) p = none)
    ∧ handleLoadGame none p = none := by
  refine ⟨fun h => ?_, fun h => ?_, rfl⟩
  · simp only [handleLoadGame]
    rw [if_pos h]
  · simp only [handleLoadGame]
    rw [if_neg h]

/-- Counterexample to C8: decoding a stored snapshot that is missing the
required `visitedCellTrail` field succeeds (no validation error is raised)
and silently substitutes the default empty array for the missing field. -/
theorem c8_failfast_counterexample :
    decodeSnapshot (some trailMissingDoc) "alice" =
      some { playerName := "alice", difficulty := .easy,
             player := { gridX := 0, gridZ := 0, worldX := -12, worldZ := -12,
                         health := 100, moves := 200 },
             game := { timeLeft := 60, isFpsView := false, currentCellType := some .BLANK,
                       startCell := (0, 0), endCell := (24, 24), isOver := false,
                       hasWon := false, timerGameOver := false },
             gridData := [[blankCell00]],
             visitedCellTrail := [] } := by
  decide

/-- Witness for C8 amended: the name-matching branch applied to the
concrete `trailMissingDoc`, exhibiting the silent trail default. -/
theorem c8_load_validation_witness :
    trailMissingDoc.playerName = some "alice" ∧
    handleLoadGame (some trailMissingDoc) "alice" =
      some { trailMissingDoc with visitedCellTrail := some [] } :=
  ⟨by decide, (c8_load_validation trailMissingDoc "alice").1 (by decide)⟩

/-- C9: round trip.  For every (typed, hence fully populated and finite)
`GameState S`, decoding the encoded snapshot under the same player name
yields `S` back, structurally equal on all fields including the nested
grid rows. -/
theorem c9_roundtrip (S : GameState) :
    decodeSnapshot (some (encodeSnapshot S)) S.playerName = some S := by
  unfold decodeSnapshot handleLoadGame encodeSnapshot fromRaw
  simp

end GridCrawler
